import Mathlib

/-!
Shallow embedding of the ResilientAPIClient from src/index.js of the
arjones88/healthcare-api-assessment repository, together with theorems that
settle the frozen claims about the Retrying Fetcher (fetchWithRetries), the
Paginator (fetchAllPatients), the Backoff Policy (getBackoffDelay) and the
risk scoring (calculateBloodPressureRisk).

Modelling conventions:
- JavaScript numbers are modelled as rationals where fractional values matter
  (backoff delays, risk thresholds) and as naturals for counters and statuses.
- The random jitter source (Math.random() * 1000) is injected as an explicit
  parameter constrained to the interval [0, 1000).
- Thrown JavaScript errors become an explicit error type; Except carries the
  thrown-or-returned outcome of a call.
- A central fact about the source, reflected faithfully below: the retry
  branches of fetchWithRetries call this.fetchWithRetry, a method that does
  not exist on the class (the defined method is named fetchWithRetries), so
  evaluating that call expression raises a TypeError at run time instead of
  recursing. The embedding therefore performs exactly one HTTP attempt.
-/

set_option linter.unusedVariables false

/-- Outcome of one physical HTTP attempt: either a response carrying a status
code and a parsed JSON body, or a network-level error thrown by fetch itself
(connection reset, timeout, ...). -/
inductive TransportOutcome (α : Type) where
  | response (status : Nat) (body : α)
  | networkError
deriving DecidableEq

/-- The errors that can be thrown out of fetchWithRetries in src/index.js:
the Authentication failure of line 43, the generic failure of line 47 carrying
the status, the TypeError raised because this.fetchWithRetry is not a function
(lines 30, 39, 63), and a transport-level error rethrown from fetch. -/
inductive FetchError where
  | authenticationFailed
  | requestFailed (status : Nat)
  | notAFunction
  | transportError
deriving DecidableEq

/-- Line 54 of src/index.js tests error.message.includes with the text
Authentication failed; only the error thrown at line 43 carries it. -/
def messageIncludesAuthenticationFailed : FetchError → Bool
  | .authenticationFailed => true
  | _ => false

/-- Observable trace of one call to fetchWithRetries: the returned value or
thrown error, the number of backoff sleeps performed, and the number of HTTP
requests issued. -/
structure FetchTrace (α : Type) where
  result : Except FetchError α
  waits : Nat
  attempts : Nat

/-- The try block of fetchWithRetries (lines 15 to 52), evaluated on the
outcome of the single HTTP attempt it performs. Returns the value produced or
error thrown, paired with the number of backoff sleeps executed inside the try
block. The 429 branch (line 26) and the 500-with-retries-left branch (line 33)
each sleep once and then evaluate this.fetchWithRetry, which is undefined, so
they throw a TypeError; 401 and 403 throw the Authentication error (line 43);
any other non-2xx status throws the generic failure (line 47); a 2xx response
returns its parsed body (line 52). -/
def tryBlock {α : Type} (maxRetries attempt : Nat) (outcome : TransportOutcome α) :
    Except FetchError α × Nat :=
  match outcome with
  | .networkError => (Except.error .transportError, 0)
  | .response status body =>
    if status = 429 then
      (Except.error .notAFunction, 1)
    else if 500 ≤ status ∧ attempt < maxRetries then
      (Except.error .notAFunction, 1)
    else if status = 401 ∨ status = 403 then
      (Except.error .authenticationFailed, 0)
    else if ¬ (200 ≤ status ∧ status < 300) then
      (Except.error (.requestFailed status), 0)
    else
      (Except.ok body, 0)

/-- fetchWithRetries (src/index.js lines 14 to 67). The transport maps the
attempt number to the outcome of the HTTP request for that attempt; because the
retry branches call the undefined this.fetchWithRetry, only transport attempt
is ever consulted. The catch block (lines 53 to 66) rethrows Authentication
errors, and otherwise, while attempts remain, sleeps one backoff delay and then
itself evaluates this.fetchWithRetry, throwing the TypeError out of the
function; with no attempts left it rethrows the caught error. -/
def fetchWithRetries {α : Type} (maxRetries : Nat) (transport : Nat → TransportOutcome α)
    (attempt : Nat) : FetchTrace α :=
  match tryBlock maxRetries attempt (transport attempt) with
  | (.ok body, w) => ⟨.ok body, w, 1⟩
  | (.error e, w) =>
    if messageIncludesAuthenticationFailed e then
      ⟨.error e, w, 1⟩
    else if attempt < maxRetries then
      ⟨.error .notAFunction, w + 1, 1⟩
    else
      ⟨.error e, w, 1⟩

/-- The JSON values relevant to the Paginator: null (or any other falsy body),
a bare array of records, or a non-array object holding records and possibly a
hasNext field. Records are opaque. -/
inductive JsonValue (α : Type) where
  | jnull
  | jarr (elements : List α)
  | jobj (records : List α) (hasNext : Option Bool)
deriving DecidableEq

/-- Line 81 of src/index.js: const patients = data || []. A falsy body is
replaced by a fresh empty array; everything else passes through. -/
def jsOrEmptyArray {α : Type} : JsonValue α → JsonValue α
  | .jnull => .jarr []
  | d => d

/-- Line 83 of src/index.js: Array.isArray(patients) and patients.length > 0. -/
def isNonEmptyArray {α : Type} : JsonValue α → Bool
  | .jarr l => decide (0 < l.length)
  | _ => false

/-- The elements pushed by allPatients.push(...patients) at line 84. -/
def arrayRecords {α : Type} : JsonValue α → List α
  | .jarr l => l
  | _ => []

/-- The mutable locals of fetchAllPatients (lines 70 to 72). -/
structure PagState (α : Type) where
  allPatients : List α
  page : Nat
  moreData : Bool

/-- How one iteration of the while loop body of fetchAllPatients exits. Every
path through the body (lines 75 to 107) ends either in the statement
return allPatients at line 107, which sits inside the loop after the
try/catch, or in the break at line 91; there is no path that reaches the loop
condition again. -/
inductive BodyExit (α : Type) where
  | ret (v : List α)
  | brk

/-- The body of the while loop of fetchAllPatients (lines 75 to 107). On a
fetch error the catch (line 101) swallows it unconditionally, sets moreData to
false, and control falls through to return allPatients. On a non-empty array
body the records are appended and control falls through to the same return
(the updates to moreData at lines 94 to 98 and to page at line 100 execute but
are dead, because the return at line 107 runs unconditionally afterwards). On
an empty-array or non-array body the else branch (line 88) breaks out of the
loop. -/
def pageBody {α : Type} (pageSize : Nat) (fetchPage : Nat → Except FetchError (JsonValue α))
    (st : PagState α) : BodyExit α :=
  match fetchPage st.page with
  | .error e => BodyExit.ret st.allPatients
  | .ok data =>
    let patients := jsOrEmptyArray data
    if isNonEmptyArray patients then
      let allPatients := st.allPatients ++ arrayRecords patients
      let moreData := (arrayRecords patients).length = pageSize
      BodyExit.ret allPatients
    else
      BodyExit.brk

/-- Observable trace of one call to fetchAllPatients: the returned value
(none models the implicit undefined returned when the loop is exited by
break and the function body ends) or an error crossing the boundary, plus the
list of pages actually requested. -/
structure PaginateTrace (α : Type) where
  result : Except FetchError (Option (List α))
  requests : List Nat

/-- fetchAllPatients (src/index.js lines 69 to 109), parametric over the
per-page outcome of the call await this.fetchWithRetries(url) at line 79.
moreData is initially true, so the while body runs; since every path through
the body ends in return or break, exactly one iteration executes and exactly
one page (page 1) is requested. A break leaves the loop and the function ends
without a return statement, producing undefined. -/
def fetchAllPatients {α : Type} (pageSize : Nat)
    (fetchPage : Nat → Except FetchError (JsonValue α)) : PaginateTrace α :=
  let st : PagState α := ⟨[], 1, true⟩
  match pageBody pageSize fetchPage st with
  | BodyExit.ret v => ⟨.ok (some v), [st.page]⟩
  | BodyExit.brk => ⟨.ok none, [st.page]⟩

/-- fetchAllPatients driven end to end through fetchWithRetries: the transport
maps a page number and an attempt number to an HTTP outcome, and each page
fetch is the call this.fetchWithRetries(url) with the default attempt 0. -/
def fetchAllPatientsClient {α : Type} (maxRetries pageSize : Nat)
    (transport : Nat → Nat → TransportOutcome (JsonValue α)) : PaginateTrace α :=
  fetchAllPatients pageSize
    (fun page => (fetchWithRetries maxRetries (transport page) 0).result)

/-- getBackoffDelay (src/index.js lines 111 to 116) with the random jitter
injected: exponDelay = initialDelay * 2 ^ attempt, result is the minimum of
exponDelay + jitter and 30000. -/
def getBackoffDelay (initialDelay : ℚ) (attempt : Nat) (jitter : ℚ) : ℚ :=
  min (initialDelay * 2 ^ attempt + jitter) 30000

/-- calculateBloodPressureRisk (src/index.js lines 174 to 180). A null on
either side returns 0; otherwise the if chain fires with thresholds 120, 130,
140 on systolic and 80, 90 on diastolic; none is the undefined produced if the
chain were to fall through. -/
def calculateBloodPressureRisk (systolic diastolic : Option ℚ) : Option Nat :=
  match systolic, diastolic with
  | none, _ => some 0
  | _, none => some 0
  | some s, some d =>
    if s < 120 ∧ d < 80 then some 0
    else if s < 130 ∧ d < 80 then some 1
    else if s < 140 ∨ d < 90 then some 2
    else if 140 ≤ s ∨ 90 ≤ d then some 3
    else none

/-! Concrete inputs used by the claim theorems. -/

/-- Pages of sizes 10, 10 and 7: the scenario of the pagination claim. -/
def threePageFetch : Nat → Except FetchError (JsonValue Nat) :=
  fun p =>
    if p = 1 then .ok (.jarr (List.range 10))
    else if p = 2 then .ok (.jarr ((List.range 10).map (fun n => n + 10)))
    else .ok (.jarr ((List.range 7).map (fun n => n + 20)))

/-- A transport answering HTTP 429 on attempts 0 and 1 and HTTP 200 with body
7 from attempt 2 on. -/
def rateLimitedTwiceTransport : Nat → TransportOutcome Nat :=
  fun i => if i < 2 then .response 429 0 else .response 200 7

/-- A transport that always answers HTTP 503. -/
def alwaysServerError : Nat → TransportOutcome Nat :=
  fun _ => .response 503 0

/-- A transport that always answers HTTP 401. -/
def alwaysUnauthorized : Nat → TransportOutcome Nat :=
  fun _ => .response 401 0

/-- A page fetcher for which every page fetch throws the Authentication
error. -/
def alwaysAuthErrorFetch : Nat → Except FetchError (JsonValue Nat) :=
  fun _ => .error .authenticationFailed

/-- Page 1 succeeds with one record, page 2 would throw a retry-exhausted
failure carrying status 503. -/
def pageTwoFails : Nat → Except FetchError (JsonValue Nat) :=
  fun p => if p = 1 then .ok (.jarr [5]) else .error (.requestFailed 503)

/-- Page 1 answers with a non-array object holding 10 records and an explicit
hasNext false field. -/
def objectPageFetch : Nat → Except FetchError (JsonValue Nat) :=
  fun _ => .ok (.jobj (List.range 10) (some false))

/-- Page 1 answers with an empty bare array. -/
def emptyPageFetch : Nat → Except FetchError (JsonValue Nat) :=
  fun _ => .ok (.jarr [])

/-! Claim theorems. -/

/-- C1: the claim states that on pages of sizes 10, 10, 7 with pageSize 10,
fetchAllPatients returns all 27 records and issues 3 page requests. Evaluating
the embedding of the code on that scenario shows what the code actually does:
the statement return allPatients sits inside the while loop, so fetchAllPatients
returns only the first page (10 records) and requests exactly one page. -/
theorem c1_pagination_observed :
    (fetchAllPatients 10 threePageFetch).result = .ok (some (List.range 10)) ∧
    (List.range 10).length = 10 ∧
    (fetchAllPatients 10 threePageFetch).requests = [1] :=
  ⟨rfl, rfl, rfl⟩

/-- C2: the claim states that with a transport answering 429 twice then
succeeding, fetchWithRetries returns the success payload after exactly 2
backoff waits for every maxRetries. Evaluating the embedding shows what the
code actually does: the 429 branch calls the undefined this.fetchWithRetry, so
the call throws a TypeError out of fetchWithRetries after a single HTTP
attempt (2 waits when retries remain, 1 wait when maxRetries is 0); the
success payload is never returned. -/
theorem c2_rate_limit_observed :
    (fetchWithRetries 5 rateLimitedTwiceTransport 0).result = .error .notAFunction ∧
    (fetchWithRetries 5 rateLimitedTwiceTransport 0).waits = 2 ∧
    (fetchWithRetries 5 rateLimitedTwiceTransport 0).attempts = 1 ∧
    (fetchWithRetries 0 rateLimitedTwiceTransport 0).result = .error .notAFunction ∧
    (fetchWithRetries 0 rateLimitedTwiceTransport 0).waits = 1 :=
  ⟨rfl, rfl, rfl, rfl, rfl⟩

/-- C3: the claim states that with a transport always answering 503 and any
maxRetries, fetchWithRetries raises a terminal error carrying the last status
after maxRetries + 1 HTTP attempts. Evaluating the embedding shows what the
code actually does: with maxRetries = 1 the retry branch calls the undefined
this.fetchWithRetry and a TypeError escapes after exactly 1 HTTP attempt and 2
waits (not a status-carrying error after 2 attempts); only the degenerate
maxRetries = 0 case matches the claim. -/
theorem c3_server_error_observed :
    (fetchWithRetries 1 alwaysServerError 0).result = .error .notAFunction ∧
    (fetchWithRetries 1 alwaysServerError 0).waits = 2 ∧
    (fetchWithRetries 1 alwaysServerError 0).attempts = 1 ∧
    (fetchWithRetries 0 alwaysServerError 0).result = .error (.requestFailed 503) ∧
    (fetchWithRetries 0 alwaysServerError 0).waits = 0 :=
  ⟨rfl, rfl, rfl, rfl, rfl⟩

/-- C4: if the fetch of the first (and only ever requested) page throws any
error, fetchAllPatients returns the accumulated records (the empty list) as a
partial result; no exception ever crosses the fetchAllPatients boundary; and
in the scenario where page 1 succeeds with a non-empty record array while
fetching page 2 would throw, fetchAllPatients returns exactly the records of
page 1. -/
theorem c4_errors_swallowed_partial_result {α : Type} (pageSize : Nat)
    (fetchPage : Nat → Except FetchError (JsonValue α)) :
    (∀ e, fetchPage 1 = .error e →
      (fetchAllPatients pageSize fetchPage).result = .ok (some [])) ∧
    (∃ v, (fetchAllPatients pageSize fetchPage).result = .ok v) ∧
    (∀ l e, fetchPage 1 = .ok (.jarr l) → 0 < l.length → fetchPage 2 = .error e →
      (fetchAllPatients pageSize fetchPage).result = .ok (some l)) := by
  refine ⟨?_, ?_, ?_⟩
  · intro e he
    simp [fetchAllPatients, pageBody, he]
  · cases hb : pageBody pageSize fetchPage ⟨[], 1, true⟩ with
    | ret v => exact ⟨some v, by simp [fetchAllPatients, hb]⟩
    | brk => exact ⟨none, by simp [fetchAllPatients, hb]⟩
  · intro l e hl hlen h2
    simp [fetchAllPatients, pageBody, hl, jsOrEmptyArray, isNonEmptyArray,
      arrayRecords, hlen]

/-- Witness for C4 at a concrete input: page 1 holds the single record 5 and
page 2 would fail with status 503; fetchAllPatients returns page 1 only. -/
theorem c4_witness :
    (fetchAllPatients 10 pageTwoFails).result = .ok (some [5]) :=
  (c4_errors_swallowed_partial_result 10 pageTwoFails).2.2 [5]
    (.requestFailed 503) rfl (by decide) rfl

/-- C5 counterexample: with a transport that always answers HTTP 401,
fetchWithRetries throws the Authentication error, but fetchAllPatients run end
to end returns the empty accumulator instead of letting that error propagate:
the per-page catch at line 101 of src/index.js swallows every error. -/
theorem c5_counterexample :
    (fetchAllPatientsClient 5 10
      (fun _ _ => TransportOutcome.response 401 (JsonValue.jnull : JsonValue Nat))).result
      = .ok (some []) ∧
    (fetchAllPatientsClient 5 10
      (fun _ _ => TransportOutcome.response 401 (JsonValue.jnull : JsonValue Nat))).result
      ≠ .error FetchError.authenticationFailed :=
  ⟨rfl, fun h => Except.noConfusion h⟩

/-- C5 amended: when fetchWithRetries raises an Authentication error while
fetching a page, the error does not propagate out of fetchAllPatients; the
per-page catch swallows it like any other error and the accumulated records
(the empty list, since page 1 is the first fetch) are returned. -/
theorem c5_auth_error_swallowed {α : Type} (pageSize : Nat)
    (fetchPage : Nat → Except FetchError (JsonValue α))
    (h : fetchPage 1 = .error .authenticationFailed) :
    (fetchAllPatients pageSize fetchPage).result = .ok (some []) := by
  simp [fetchAllPatients, pageBody, h]

/-- Witness for C5 at a concrete input: every page fetch throws the
Authentication error and fetchAllPatients returns the empty list. -/
theorem c5_witness :
    (fetchAllPatients 10 alwaysAuthErrorFetch).result = .ok (some []) :=
  c5_auth_error_swallowed 10 alwaysAuthErrorFetch rfl

/-- C6: for every maxRetries and every transport that always answers HTTP 401
or 403, fetchWithRetries throws the Authentication error on the first attempt,
with zero backoff waits and a single HTTP attempt; the catch block rethrows it
because its message contains the Authentication failed text. -/
theorem c6_auth_fail_fast {α : Type} (maxRetries : Nat)
    (transport : Nat → TransportOutcome α)
    (h : ∀ i, ∃ body, transport i = .response 401 body ∨ transport i = .response 403 body) :
    (fetchWithRetries maxRetries transport 0).result = .error .authenticationFailed ∧
    (fetchWithRetries maxRetries transport 0).waits = 0 ∧
    (fetchWithRetries maxRetries transport 0).attempts = 1 := by
  obtain ⟨b, hb | hb⟩ := h 0 <;>
    simp [fetchWithRetries, tryBlock, hb, messageIncludesAuthenticationFailed]

/-- Witness for C6 at a concrete input: maxRetries 5 and a transport that
always answers 401. -/
theorem c6_witness :
    (fetchWithRetries 5 alwaysUnauthorized 0).result = .error .authenticationFailed ∧
    (fetchWithRetries 5 alwaysUnauthorized 0).waits = 0 ∧
    (fetchWithRetries 5 alwaysUnauthorized 0).attempts = 1 :=
  c6_auth_fail_fast 5 alwaysUnauthorized (fun i => ⟨0, Or.inl rfl⟩)

/-- C7: the claim states that a page-1 body that is an object holding 10
records together with hasNext false gets its records appended and returned.
Evaluating the embedding shows what the code actually does: the object is not
an array, so the Array.isArray guard at line 83 sends control to the break and
fetchAllPatients returns undefined; the hasNext check at line 96 is
unreachable for object bodies and the 10 records are lost. -/
theorem c7_has_next_observed :
    (fetchAllPatients 10 objectPageFetch).result = .ok none ∧
    (List.range 10).length = 10 ∧
    (fetchAllPatients 10 objectPageFetch).requests = [1] :=
  ⟨rfl, rfl, rfl⟩

/-- C8: with the jitter drawn from [0, 1000), getBackoffDelay equals
min(initialDelay * 2 ^ attempt + jitter, 30000); consequently it is bounded
below by min(initialDelay * 2 ^ attempt, 30000), bounded above by
min(initialDelay * 2 ^ attempt + 1000, 30000), and never exceeds the 30000
cap. -/
theorem c8_backoff_delay_bounds (initialDelay jitter : ℚ) (attempt : Nat)
    (h0 : 0 ≤ jitter) (h1 : jitter < 1000) :
    getBackoffDelay initialDelay attempt jitter =
      min (initialDelay * 2 ^ attempt + jitter) 30000 ∧
    min (initialDelay * 2 ^ attempt) 30000 ≤ getBackoffDelay initialDelay attempt jitter ∧
    getBackoffDelay initialDelay attempt jitter ≤
      min (initialDelay * 2 ^ attempt + 1000) 30000 ∧
    getBackoffDelay initialDelay attempt jitter ≤ 30000 := by
  unfold getBackoffDelay
  refine ⟨rfl, min_le_min (by linarith) le_rfl,
    min_le_min (by linarith) le_rfl, min_le_right _ _⟩

/-- Witness for C8 at a concrete input: initialDelay 1000, attempt 3, jitter
500 give the delay 8500, inside the claimed bounds. -/
theorem c8_witness :
    getBackoffDelay 1000 3 500 = min ((1000 : ℚ) * 2 ^ 3 + 500) 30000 ∧
    min ((1000 : ℚ) * 2 ^ 3) 30000 ≤ getBackoffDelay 1000 3 500 ∧
    getBackoffDelay 1000 3 500 ≤ min ((1000 : ℚ) * 2 ^ 3 + 1000) 30000 ∧
    getBackoffDelay 1000 3 500 ≤ 30000 :=
  c8_backoff_delay_bounds 1000 500 3 (by norm_num) (by norm_num)

/-- C9: when the first page yields an empty array, a falsy body, or a
non-array object, fetchAllPatients leaves its loop through the break at line
91 and the function ends without a return statement: the result is undefined
(modelled none), which differs from returning the empty accumulator. -/
theorem c9_empty_page_returns_undefined {α : Type} (pageSize : Nat)
    (fetchPage : Nat → Except FetchError (JsonValue α))
    (h : fetchPage 1 = .ok (.jarr []) ∨ fetchPage 1 = .ok .jnull ∨
         ∃ l hn, fetchPage 1 = .ok (.jobj l hn)) :
    (fetchAllPatients pageSize fetchPage).result = .ok none ∧
    (fetchAllPatients pageSize fetchPage).result ≠ .ok (some ([] : List α)) := by
  have hres : (fetchAllPatients pageSize fetchPage).result = .ok none := by
    rcases h with h | h | ⟨l, hn, h⟩ <;>
      simp [fetchAllPatients, pageBody, h, jsOrEmptyArray, isNonEmptyArray]
  refine ⟨hres, ?_⟩
  rw [hres]
  simp

/-- Witness for C9 at a concrete input: page 1 is the empty bare array. -/
theorem c9_witness :
    (fetchAllPatients 10 emptyPageFetch).result = .ok none ∧
    (fetchAllPatients 10 emptyPageFetch).result ≠ .ok (some ([] : List Nat)) :=
  c9_empty_page_returns_undefined 10 emptyPageFetch (Or.inl rfl)

/-- C10: calculateBloodPressureRisk is total and range bounded: a null on
either side yields 0; for numeric inputs the if chain always produces a value
(never the fall-through undefined) and that value is at most 3; and whenever
diastolic is below 90 the result is at most 2, because the third branch tests
a disjunction that already fires. -/
theorem c10_blood_pressure_risk_total (s d : ℚ) :
    calculateBloodPressureRisk none (some d) = some 0 ∧
    calculateBloodPressureRisk (some s) none = some 0 ∧
    (calculateBloodPressureRisk (some s) (some d)).isSome = true ∧
    (calculateBloodPressureRisk (some s) (some d)).getD 4 ≤ 3 ∧
    (d < 90 → (calculateBloodPressureRisk (some s) (some d)).getD 4 ≤ 2) := by
  have hchain : calculateBloodPressureRisk (some s) (some d) = some 0 ∨
      calculateBloodPressureRisk (some s) (some d) = some 1 ∨
      calculateBloodPressureRisk (some s) (some d) = some 2 ∨
      calculateBloodPressureRisk (some s) (some d) = some 3 := by
    simp only [calculateBloodPressureRisk]
    split_ifs with h1 h2 h3 h4
    · exact Or.inl rfl
    · exact Or.inr (Or.inl rfl)
    · exact Or.inr (Or.inr (Or.inl rfl))
    · exact Or.inr (Or.inr (Or.inr rfl))
    · push_neg at h3 h4
      exact absurd h4.1 (not_lt.mpr h3.1)
  refine ⟨rfl, rfl, ?_, ?_, ?_⟩
  · rcases hchain with h | h | h | h <;> simp [h]
  · rcases hchain with h | h | h | h <;> simp [h]
  · intro hd
    simp only [calculateBloodPressureRisk]
    split_ifs with h1 h2 h3 h4
    · simp
    · simp
    · simp
    · exact absurd (Or.inr hd) h3
    · exact absurd (Or.inr hd) h3

/-- Witness for C10 at a concrete input: systolic 150 with diastolic 80 stays
at risk tier 2 despite systolic being at least 140. -/
theorem c10_witness :
    (calculateBloodPressureRisk (some 150) (some 80)).getD 4 ≤ 2 :=
  (c10_blood_pressure_risk_total 150 80).2.2.2.2 (by norm_num)
